import Mathlib

/-!
Verification development for the health-chatbot backend
(`src/backend/main.js`): a SQLite-backed disease catalog with CRUD
routes and a keyword-matching chatbot route.

The JavaScript source is shallowly embedded as follows.

* SQLite rows of the `diseases` table become `DiseaseRecord`; the whole
  table (plus the AUTOINCREMENT counter, which SQLite keeps in
  `sqlite_sequence` and never rewinds) becomes `Store`.  Rows are kept
  in insertion order, which is the order an unordered `SELECT *`
  returns them in.
* The route handlers become total Lean functions returning
  `Except SvcError _`.  A request body field that may be absent
  (JavaScript `undefined`, bound by the sqlite3 driver as SQL `NULL`)
  is an `Option String`; an absent field inserted into a `NOT NULL`
  column makes the statement fail, which the handler surfaces as a 500
  (`SvcError.storageError`).
* `LOWER` in SQLite lowercases ASCII letters only, and over ASCII data
  JavaScript `toLowerCase` agrees with it, so strings are modelled with
  ASCII lowercasing (`lowerChar` / `lowerStr`).
* The chatbot interpolates the lowercased message into a
  `LIKE '%...%'` pattern, so `%` and `_` inside the message act as SQL
  wildcards.  `likeMatch` is the standard LIKE pattern semantics
  (`%` matches any sequence, `_` any single character); case handling
  is irrelevant here because both sides are lowercased first.
-/

/-- ASCII lowercasing of one character, as SQLite `LOWER` does per
character (and as JavaScript `toLowerCase` does on ASCII input). -/
def lowerChar (c : Char) : Char :=
  if 'A' ≤ c ∧ c ≤ 'Z' then Char.ofNat (c.toNat + 32) else c

/-- ASCII lowercasing of a string. -/
def lowerStr (s : String) : String :=
  ⟨s.data.map lowerChar⟩

/-- Predicate `startsWith q s`: `q` is a prefix of the character list `s`. -/
def startsWith : List Char → List Char → Bool
  | [], _ => true
  | _ :: _, [] => false
  | a :: as, b :: bs => (a == b) && startsWith as bs

/-- Predicate `containsSub q s`: `q` occurs as a contiguous substring of `s`. -/
def containsSub (q : List Char) : List Char → Bool
  | [] => q.isEmpty
  | c :: s => startsWith q (c :: s) || containsSub q s

/-- JavaScript `hay.includes(sub)`: substring containment on strings. -/
def jsIncludes (hay sub : String) : Bool :=
  containsSub sub.data hay.data

/-- Predicate `anySuffix f s`: `f` holds of some suffix of `s` (the empty
suffix included). -/
def anySuffix (f : List Char → Bool) : List Char → Bool
  | [] => f []
  | c :: s => f (c :: s) || anySuffix f s

/-- SQL `LIKE` pattern matching: `%` matches any sequence of
characters, `_` matches exactly one character, every other pattern
character matches itself. -/
def likeMatch : List Char → List Char → Bool
  | [], s => s.isEmpty
  | a :: ps, s =>
    if a = '%' then anySuffix (fun t => likeMatch ps t) s
    else
      match s with
      | [] => false
      | c :: s' => (a = '_' || a == c) && likeMatch ps s'

/-- One disjunct of the chatbot's WHERE clause:
`LOWER(field) LIKE '%' || term || '%'` with `term` already
lowercased by the caller. -/
def sqlLike (term field : String) : Bool :=
  likeMatch ('%' :: (term.data ++ ['%'])) (lowerStr field).data

/-- A row of the `diseases` table (spec: `DiseaseRecord`). -/
structure DiseaseRecord where
  id : Nat
  name : String
  symptoms : String
  causes : String
  prevention : String
  when_to_see_doctor : String
deriving DecidableEq

/-- The persistent state: the `diseases` table in insertion order plus
the AUTOINCREMENT counter (the next id SQLite will assign; SQLite
records the largest id ever used in `sqlite_sequence` and never reuses
one). -/
structure Store where
  rows : List DiseaseRecord
  nextId : Nat
deriving DecidableEq

/-- Failures a route handler can surface: `notFound` becomes a 404
with `error: "Disease not found"`, `storageError` a 500 echoing the
SQLite message (a `NOT NULL` violation from a missing body field is
surfaced this way too). -/
inductive SvcError where
  | notFound
  | storageError
deriving DecidableEq

/-- The five body fields of POST/PUT `/api/diseases`; `none` models a
field absent from the JSON body (JavaScript `undefined`, bound as SQL
`NULL`). -/
structure FieldsIn where
  name : Option String
  symptoms : Option String
  causes : Option String
  prevention : Option String
  when_to_see_doctor : Option String
deriving DecidableEq

/-- Fresh database: empty table, first AUTOINCREMENT id is 1. -/
def initStore : Store := ⟨[], 1⟩

namespace Svc

/-- POST `/api/diseases`: INSERT the five body fields, answer the new
`lastID`.  A missing field is bound as NULL and violates the column's
NOT NULL constraint, surfaced as a 500 (`storageError`). -/
def create (s : Store) (f : FieldsIn) : Except SvcError (Store × Nat) :=
  match f.name, f.symptoms, f.causes, f.prevention, f.when_to_see_doctor with
  | some n, some sy, some c, some p, some w =>
      .ok ({ rows := s.rows ++ [⟨s.nextId, n, sy, c, p, w⟩], nextId := s.nextId + 1 },
           s.nextId)
  | _, _, _, _, _ => .error .storageError

/-- GET `/api/diseases/:id`: `db.get` returns the first row matching
`WHERE id = ?`; no row is a 404 (`notFound`). -/
def getById (s : Store) (id : Nat) : Except SvcError DiseaseRecord :=
  match s.rows.find? (fun r => r.id == id) with
  | some r => .ok r
  | none => .error .notFound

/-- PUT `/api/diseases/:id`: UPDATE all five columns WHERE id
matches.  If no row matches, `this.changes === 0` and the handler
answers 404; if a row matches but a body field is missing, the NOT
NULL constraint fires (500). -/
def update (s : Store) (id : Nat) (f : FieldsIn) : Except SvcError Store :=
  if s.rows.any (fun r => r.id == id) then
    match f.name, f.symptoms, f.causes, f.prevention, f.when_to_see_doctor with
    | some n, some sy, some c, some p, some w =>
        .ok { s with rows := s.rows.map (fun r => if r.id == id then ⟨id, n, sy, c, p, w⟩ else r) }
    | _, _, _, _, _ => .error .storageError
  else .error .notFound

/-- DELETE `/api/diseases/:id`: DELETE WHERE id matches; zero affected
rows (`this.changes === 0`) is a 404. -/
def delete (s : Store) (id : Nat) : Except SvcError Store :=
  if s.rows.any (fun r => r.id == id) then
    .ok { s with rows := s.rows.filter (fun r => !(r.id == id)) }
  else .error .notFound

end Svc

/-- One entry of the `sampleDiseases` array in `insertSampleData`. -/
structure SampleDisease where
  name : String
  symptoms : String
  causes : String
  prevention : String
  when_to_see_doctor : String
deriving DecidableEq

/-- First entry of `sampleDiseases`. -/
def diabetesSample : SampleDisease :=
  { name := "Diabetes"
  , symptoms := "Increased thirst, frequent urination, extreme hunger, unexplained weight loss, fatigue, blurred vision, slow-healing sores"
  , causes := "Insulin resistance, pancreas not producing enough insulin, genetic factors, obesity, sedentary lifestyle"
  , prevention := "Maintain healthy weight, exercise regularly (30 mins daily), eat balanced diet with less sugar, monitor blood sugar levels, avoid smoking"
  , when_to_see_doctor := "If you experience excessive thirst and urination, unexplained weight loss, or persistent fatigue. Regular checkups if you have family history." }

/-- Second entry of `sampleDiseases`. -/
def dengueSample : SampleDisease :=
  { name := "Dengue"
  , symptoms := "High fever, severe headache, pain behind eyes, joint and muscle pain, nausea, vomiting, skin rash, mild bleeding (nose/gums)"
  , causes := "Aedes mosquito bite carrying dengue virus, standing water breeding grounds, tropical climate areas"
  , prevention := "Use mosquito repellent, wear long sleeves, eliminate standing water, use mosquito nets, keep surroundings clean"
  , when_to_see_doctor := "Immediately if you have high fever with severe headache, persistent vomiting, bleeding, difficulty breathing, or severe abdominal pain." }

/-- Third entry of `sampleDiseases`. -/
def malariaSample : SampleDisease :=
  { name := "Malaria"
  , symptoms := "High fever with chills, sweating, headache, nausea, vomiting, muscle pain, fatigue, anemia"
  , causes := "Anopheles mosquito bite carrying plasmodium parasite, exposure to infected blood"
  , prevention := "Sleep under mosquito nets, use insect repellent, take antimalarial medication in high-risk areas, eliminate mosquito breeding sites"
  , when_to_see_doctor := "Seek immediate care for high fever after visiting malaria-prone areas, severe headache, confusion, seizures, or difficulty breathing." }

/-- Fourth entry of `sampleDiseases`. -/
def commonColdSample : SampleDisease :=
  { name := "Common Cold"
  , symptoms := "Runny nose, sore throat, cough, sneezing, mild headache, slight fever, body aches"
  , causes := "Viral infection (rhinovirus), spread through droplets, weakened immunity, seasonal changes"
  , prevention := "Wash hands frequently, avoid close contact with sick people, boost immunity with vitamin C, stay hydrated, get enough sleep"
  , when_to_see_doctor := "If symptoms last more than 10 days, fever above 101.3°F, difficulty breathing, severe throat pain, or symptoms worsen after improving." }

/-- Fifth entry of `sampleDiseases`. -/
def hypertensionSample : SampleDisease :=
  { name := "Hypertension"
  , symptoms := "Usually no symptoms (silent killer), sometimes headaches, shortness of breath, nosebleeds in severe cases"
  , causes := "High salt intake, obesity, lack of exercise, stress, smoking, alcohol, genetic factors"
  , prevention := "Reduce salt intake, exercise regularly, maintain healthy weight, manage stress, limit alcohol, quit smoking, monitor blood pressure"
  , when_to_see_doctor := "Regular checkups recommended. Seek immediate care for severe headache, chest pain, vision problems, or difficulty breathing." }

/-- The `sampleDiseases` array of `insertSampleData`, in source order. -/
def sampleDiseases : List SampleDisease :=
  [diabetesSample, dengueSample, malariaSample, commonColdSample, hypertensionSample]

/-- One `stmt.run(...)` of the seeding loop: INSERT with all five
fields present, consuming one AUTOINCREMENT id. -/
def insertSeedRow (s : Store) (d : SampleDisease) : Store :=
  { rows := s.rows ++ [⟨s.nextId, d.name, d.symptoms, d.causes, d.prevention, d.when_to_see_doctor⟩]
  , nextId := s.nextId + 1 }

/-- Seeding, `insertSampleData`: if `SELECT COUNT(*)` is zero, insert the five
sample diseases in order; otherwise do nothing (spec: `seedIfEmpty`). -/
def insertSampleData (s : Store) : Store :=
  if s.rows.length = 0 then sampleDiseases.foldl insertSeedRow s else s

/-- The store right after first startup: schema created and the five
sample diseases seeded into an empty database. -/
def seedStore : Store := insertSampleData initStore

/-- The fixed no-match reply of POST `/api/chatbot`. -/
def fallbackReply : String :=
  "I'm sorry, I couldn't find information about that. Please try asking about common diseases like diabetes, dengue, malaria, common cold, or hypertension. You can also ask about symptoms, causes, or prevention."

/-- The WHERE clause of the chatbot query for one row: the lowercased
search term LIKE-matched (wrapped in `%`) against `LOWER(name)`,
`LOWER(symptoms)` and `LOWER(causes)`. -/
def matchesRecord (term : String) (r : DiseaseRecord) : Bool :=
  sqlLike term r.name || sqlLike term r.symptoms || sqlLike term r.causes

/-- Formatting, `formatChatbotResponse(disease, query)`: heading plus the section
chosen by the first category keyword found in the query, or all four
sections when none is found. -/
def formatChatbotResponse (disease : DiseaseRecord) (query : String) : String :=
  let response := "**" ++ disease.name ++ "**\n\n"
  if jsIncludes query "symptom" then
    response ++ "**Symptoms:**\n" ++ disease.symptoms ++ "\n\n"
  else if jsIncludes query "cause" then
    response ++ "**Causes:**\n" ++ disease.causes ++ "\n\n"
  else if jsIncludes query "prevent" || jsIncludes query "avoid" then
    response ++ "**Prevention:**\n" ++ disease.prevention ++ "\n\n"
  else if jsIncludes query "doctor" || jsIncludes query "hospital" then
    response ++ "**When to see a doctor:**\n" ++ disease.when_to_see_doctor ++ "\n\n"
  else
    response ++ "**Symptoms:**\n" ++ disease.symptoms ++ "\n\n"
      ++ "**Causes:**\n" ++ disease.causes ++ "\n\n"
      ++ "**Prevention:**\n" ++ disease.prevention ++ "\n\n"
      ++ "**When to see a doctor:**\n" ++ disease.when_to_see_doctor

/-- The chatbot handler body after the search term is in hand: the
rows the SELECT returns are the store rows passing `matchesRecord`;
zero rows give the fallback reply with no `disease` field (`none`),
otherwise `rows[0]` is formatted and returned as the `disease`
field. -/
def chatbotSearch (s : Store) (searchTerm : String) : String × Option DiseaseRecord :=
  match s.rows.filter (matchesRecord searchTerm) with
  | [] => (fallbackReply, none)
  | r :: _ => (formatChatbotResponse r searchTerm, some r)

/-- POST `/api/chatbot` on a string message: lowercase it, then search
and format. -/
def chatbot (s : Store) (message : String) : String × Option DiseaseRecord :=
  chatbotSearch s (lowerStr message)

/-- What `req.body.message` can be for the chatbot route: a string, a
non-string JSON value, or absent (JavaScript `undefined`). -/
inductive JsMessage where
  | undef
  | nonString
  | jstr (s : String)
deriving DecidableEq

/-- A thrown JavaScript exception; Express answers such a request with
an error status, never a 200 body. -/
inductive JsError where
  | typeError
deriving DecidableEq

/-- Lowercasing, `message.toLowerCase()`: only a string has a `toLowerCase` method;
on `undefined` (absent field) or any non-string value the call throws
a `TypeError`. -/
def jsToLowerCase : JsMessage → Except JsError String
  | .jstr s => .ok (lowerStr s)
  | _ => .error .typeError

/-- The whole POST `/api/chatbot` handler: `message.toLowerCase()`
runs before the database query, so a thrown `TypeError` aborts the
request before any search. -/
def chatbotHandler (s : Store) (m : JsMessage) : Except JsError (String × Option DiseaseRecord) :=
  match jsToLowerCase m with
  | .ok term => .ok (chatbotSearch s term)
  | .error e => .error e

/-- One state-changing request against the store. -/
inductive Op where
  | create (f : FieldsIn)
  | update (id : Nat) (f : FieldsIn)
  | delete (id : Nat)
  | seed
deriving DecidableEq

/-- The store after serving one request: a failed request leaves the
database untouched. -/
def applyOp (s : Store) : Op → Store
  | .create f =>
    match Svc.create s f with
    | .ok (s', _) => s'
    | .error _ => s
  | .update id f =>
    match Svc.update s id f with
    | .ok s' => s'
    | .error _ => s
  | .delete id =>
    match Svc.delete s id with
    | .ok s' => s'
    | .error _ => s
  | .seed => insertSampleData s

/-- A store state the running system can actually be in: reachable
from the fresh database by some sequence of requests. -/
def Reachable (s : Store) : Prop :=
  ∃ ops : List Op, s = ops.foldl applyOp initStore

/-- Every row id is below the AUTOINCREMENT counter. -/
def IdsBelow (s : Store) : Prop :=
  ∀ r ∈ s.rows, r.id < s.nextId

/-- Row ids are pairwise distinct. -/
def NodupIds (s : Store) : Prop :=
  (s.rows.map (fun r => r.id)).Nodup

instance (s : Store) : Decidable (IdsBelow s) := by
  unfold IdsBelow; infer_instance

instance (s : Store) : Decidable (NodupIds s) := by
  unfold NodupIds; infer_instance

set_option maxRecDepth 10000

theorem startsWith_nil (p : List Char) : startsWith p [] = p.isEmpty := by
  cases p <;> rfl

theorem anySuffix_of_nil (f : List Char → Bool) (h : f [] = true) :
    ∀ s, anySuffix f s = true := by
  intro s
  induction s with
  | nil => simpa [anySuffix] using h
  | cons c s ih => simp [anySuffix, ih]

theorem anySuffix_congr (f g : List Char → Bool) (h : ∀ t, f t = g t) :
    ∀ s, anySuffix f s = anySuffix g s := by
  intro s
  induction s with
  | nil => simp [anySuffix, h]
  | cons c s ih => simp [anySuffix, h, ih]

/-- A wildcard-free pattern followed by `%` LIKE-matches exactly the
strings it is a prefix of. -/
theorem likeMatch_lit_append (p : List Char) (hp : ∀ a ∈ p, a ≠ '%' ∧ a ≠ '_') :
    ∀ s, likeMatch (p ++ ['%']) s = startsWith p s := by
  induction p with
  | nil =>
    intro s
    have h0 : anySuffix (fun t => likeMatch ([] : List Char) t) s = true :=
      anySuffix_of_nil _ rfl s
    simpa [likeMatch, startsWith] using h0
  | cons a as ih =>
    intro s
    have ha := hp a (List.mem_cons_self a as)
    have has : ∀ b ∈ as, b ≠ '%' ∧ b ≠ '_' := fun b hb => hp b (List.mem_cons_of_mem a hb)
    cases s with
    | nil => simp [likeMatch, startsWith, ha.1]
    | cons c s' => simp [likeMatch, startsWith, ha.1, ha.2, ih has s']

theorem containsSub_eq_anySuffix (p : List Char) :
    ∀ s, containsSub p s = anySuffix (startsWith p) s := by
  intro s
  induction s with
  | nil => simp [containsSub, anySuffix, startsWith_nil]
  | cons c s ih => simp [containsSub, anySuffix, ih]

/-- Wrapping a wildcard-free term in `%...%` turns LIKE matching into
substring containment. -/
theorem likeMatch_wrapped_eq_containsSub (p : List Char)
    (hp : ∀ a ∈ p, a ≠ '%' ∧ a ≠ '_') (s : List Char) :
    likeMatch ('%' :: (p ++ ['%'])) s = containsSub p s := by
  have h1 : likeMatch ('%' :: (p ++ ['%'])) s
      = anySuffix (fun t => likeMatch (p ++ ['%']) t) s := by
    simp [likeMatch]
  rw [h1, anySuffix_congr _ _ (fun t => likeMatch_lit_append p hp t) s,
    ← containsSub_eq_anySuffix]

theorem sqlLike_eq_contains (term field : String)
    (h : ∀ a ∈ term.data, a ≠ '%' ∧ a ≠ '_') :
    sqlLike term field = jsIncludes (lowerStr field) term :=
  likeMatch_wrapped_eq_containsSub term.data h (lowerStr field).data

/-- C1 counterexample: the one-character query `"_"` is a SQL LIKE
wildcard, so it matches a record with one-character fields even though
`"_"` is a substring of none of its `name`, `symptoms`, `causes`; the
match predicate as claimed (substring exactly) is therefore false for
the query string `"_"`. -/
theorem like_match_not_substring_cex :
    matchesRecord (lowerStr "_") ⟨1, "b", "x", "y", "z", "w"⟩ = true ∧
    jsIncludes (lowerStr "b") (lowerStr "_") = false ∧
    jsIncludes (lowerStr "x") (lowerStr "_") = false ∧
    jsIncludes (lowerStr "y") (lowerStr "_") = false := by
  decide

/-- C1 (amended): for every query whose lowercasing contains no SQL
LIKE wildcard character (`%` or `_`), the Keyword Responder's match
predicate holds for a record exactly when the lowercased query is a
substring of the lowercased `name`, `symptoms`, or `causes` field
(logical OR across the three); and the predicate never consults the
`prevention` or `when_to_see_doctor` fields (records agreeing on the
three searched fields match identically). -/
theorem match_predicate_substring_fields :
  ∀ (message : String) (r : DiseaseRecord),
    (∀ a ∈ (lowerStr message).data, a ≠ '%' ∧ a ≠ '_') →
    (matchesRecord (lowerStr message) r =
      (jsIncludes (lowerStr r.name) (lowerStr message) ||
        jsIncludes (lowerStr r.symptoms) (lowerStr message) ||
        jsIncludes (lowerStr r.causes) (lowerStr message))) ∧
    (∀ r' : DiseaseRecord, r'.name = r.name → r'.symptoms = r.symptoms →
      r'.causes = r.causes →
      matchesRecord (lowerStr message) r' = matchesRecord (lowerStr message) r) := by
  intro message r h
  constructor
  · unfold matchesRecord
    rw [sqlLike_eq_contains _ _ h, sqlLike_eq_contains _ _ h, sqlLike_eq_contains _ _ h]
  · intro r' h1 h2 h3
    unfold matchesRecord
    rw [h1, h2, h3]

theorem match_predicate_substring_fields_witness :
    matchesRecord (lowerStr "Fever") ⟨2, "Dengue", "High fever, headache", "virus", "nets", "care"⟩ =
      (jsIncludes (lowerStr "Dengue") (lowerStr "Fever") ||
        jsIncludes (lowerStr "High fever, headache") (lowerStr "Fever") ||
        jsIncludes (lowerStr "virus") (lowerStr "Fever")) :=
  (match_predicate_substring_fields "Fever"
    ⟨2, "Dengue", "High fever, headache", "virus", "nets", "care"⟩ (by decide)).1

/-- C2: for every matched record and every query, the category
dispatch of `formatChatbotResponse` follows the fixed priority order:
a query containing "symptom" gets only the symptoms section; else
"cause" only the causes section; else "prevent"/"avoid" only the
prevention section; else "doctor"/"hospital" only the care-guidance
section; otherwise all four sections in the order symptoms, causes,
prevention, care guidance; in particular a query containing both
"symptom" and "doctor" gets the symptoms section. -/
theorem format_response_category_dispatch :
  ∀ (d : DiseaseRecord) (q : String),
    (jsIncludes q "symptom" = true →
      formatChatbotResponse d q =
        "**" ++ d.name ++ "**\n\n" ++ "**Symptoms:**\n" ++ d.symptoms ++ "\n\n") ∧
    (jsIncludes q "symptom" = false → jsIncludes q "cause" = true →
      formatChatbotResponse d q =
        "**" ++ d.name ++ "**\n\n" ++ "**Causes:**\n" ++ d.causes ++ "\n\n") ∧
    (jsIncludes q "symptom" = false → jsIncludes q "cause" = false →
      (jsIncludes q "prevent" || jsIncludes q "avoid") = true →
      formatChatbotResponse d q =
        "**" ++ d.name ++ "**\n\n" ++ "**Prevention:**\n" ++ d.prevention ++ "\n\n") ∧
    (jsIncludes q "symptom" = false → jsIncludes q "cause" = false →
      (jsIncludes q "prevent" || jsIncludes q "avoid") = false →
      (jsIncludes q "doctor" || jsIncludes q "hospital") = true →
      formatChatbotResponse d q =
        "**" ++ d.name ++ "**\n\n" ++ "**When to see a doctor:**\n"
          ++ d.when_to_see_doctor ++ "\n\n") ∧
    (jsIncludes q "symptom" = false → jsIncludes q "cause" = false →
      (jsIncludes q "prevent" || jsIncludes q "avoid") = false →
      (jsIncludes q "doctor" || jsIncludes q "hospital") = false →
      formatChatbotResponse d q =
        "**" ++ d.name ++ "**\n\n" ++ "**Symptoms:**\n" ++ d.symptoms ++ "\n\n"
          ++ "**Causes:**\n" ++ d.causes ++ "\n\n"
          ++ "**Prevention:**\n" ++ d.prevention ++ "\n\n"
          ++ "**When to see a doctor:**\n" ++ d.when_to_see_doctor) ∧
    (jsIncludes q "symptom" = true → jsIncludes q "doctor" = true →
      formatChatbotResponse d q =
        "**" ++ d.name ++ "**\n\n" ++ "**Symptoms:**\n" ++ d.symptoms ++ "\n\n") := by
  intro d q
  refine ⟨fun h1 => ?_, fun h1 h2 => ?_, fun h1 h2 h3 => ?_, fun h1 h2 h3 h4 => ?_,
    fun h1 h2 h3 h4 => ?_, fun h1 _ => ?_⟩ <;>
    simp [formatChatbotResponse, h1, *]

theorem format_response_category_dispatch_witness :
    formatChatbotResponse ⟨1, "Diabetes", "S", "C", "P", "W"⟩ "symptom doctor" =
      "**" ++ "Diabetes" ++ "**\n\n" ++ "**Symptoms:**\n" ++ "S" ++ "\n\n" ∧
    formatChatbotResponse ⟨1, "Diabetes", "S", "C", "P", "W"⟩ "hello" =
      "**" ++ "Diabetes" ++ "**\n\n" ++ "**Symptoms:**\n" ++ "S" ++ "\n\n"
        ++ "**Causes:**\n" ++ "C" ++ "\n\n"
        ++ "**Prevention:**\n" ++ "P" ++ "\n\n"
        ++ "**When to see a doctor:**\n" ++ "W" :=
  ⟨(format_response_category_dispatch ⟨1, "Diabetes", "S", "C", "P", "W"⟩
      "symptom doctor").2.2.2.2.2 (by decide) (by decide),
   (format_response_category_dispatch ⟨1, "Diabetes", "S", "C", "P", "W"⟩
      "hello").2.2.2.2.1 (by decide) (by decide) (by decide) (by decide)⟩

/-- C10: if the chatbot request body has no `message` string (absent
field or non-string value), `message.toLowerCase()` throws a
`TypeError` before any search runs, so the handler produces an error,
never the 200 fallback reply; the outcome does not depend on the
store, showing no search was consulted. -/
theorem chatbot_missing_message_throws :
  ∀ s : Store,
    chatbotHandler s JsMessage.undef = Except.error JsError.typeError ∧
    chatbotHandler s JsMessage.nonString = Except.error JsError.typeError ∧
    (∀ s₂ : Store, chatbotHandler s JsMessage.undef = chatbotHandler s₂ JsMessage.undef) :=
  fun _ => ⟨rfl, rfl, fun _ => rfl⟩

/-- The first row a SELECT-with-WHERE returns is the first list
element satisfying the predicate. -/
theorem head_filter_eq_find {α : Type} (p : α → Bool) (l : List α) :
    (l.filter p).head? = l.find? p := by
  induction l with
  | nil => rfl
  | cons a t ih =>
    by_cases h : p a <;> simp [List.filter_cons, List.find?_cons, h, ih]

/-- C3 counterexample: against the seeded store, the query
`"diabetes symptoms"` does not produce the Diabetes symptoms section
(its reply does not even contain the symptoms text, and no record is
returned), because the whole message is LIKE-matched against each
field and `"diabetes symptoms"` is a substring of none of them. -/
theorem diabetes_symptoms_query_cex :
    jsIncludes (chatbot seedStore "diabetes symptoms").1 diabetesSample.symptoms = false ∧
    (chatbot seedStore "diabetes symptoms").2 = none := by
  decide

/-- C3 (amended): querying the chatbot with `"diabetes symptoms"`
against a store containing exactly the five seed diseases returns the
fixed fallback reply and no disease field, since the full query string
is a substring of no record's name, symptoms or causes. -/
theorem diabetes_symptoms_query_fallback :
    chatbot seedStore "diabetes symptoms" = (fallbackReply, none) := by
  decide

/-- C4: a query matching zero records gets the fixed fallback reply
(which names diabetes, dengue, malaria, common cold, hypertension and
the categories symptoms, causes, prevention) with no disease field;
a query with at least one match gets a reply built from the first
matching record in store order, returned as the `disease` field. -/
theorem chatbot_first_match_or_fallback :
  ∀ (s : Store) (message : String),
    (s.rows.find? (matchesRecord (lowerStr message)) = none →
      chatbot s message = (fallbackReply, none)) ∧
    (∀ r : DiseaseRecord, s.rows.find? (matchesRecord (lowerStr message)) = some r →
      chatbot s message = (formatChatbotResponse r (lowerStr message), some r)) ∧
    (jsIncludes fallbackReply "diabetes" = true ∧ jsIncludes fallbackReply "dengue" = true ∧
      jsIncludes fallbackReply "malaria" = true ∧ jsIncludes fallbackReply "common cold" = true ∧
      jsIncludes fallbackReply "hypertension" = true ∧ jsIncludes fallbackReply "symptoms" = true ∧
      jsIncludes fallbackReply "causes" = true ∧ jsIncludes fallbackReply "prevention" = true) := by
  intro s message
  have hf := head_filter_eq_find (matchesRecord (lowerStr message)) s.rows
  refine ⟨?_, ?_, by decide⟩
  · intro h
    rw [h] at hf
    have hnil : s.rows.filter (matchesRecord (lowerStr message)) = [] := by
      cases hl : s.rows.filter (matchesRecord (lowerStr message)) with
      | nil => rfl
      | cons x t => rw [hl] at hf; simp at hf
    unfold chatbot chatbotSearch
    rw [hnil]
  · intro r h
    rw [h] at hf
    obtain ⟨t, ht⟩ : ∃ t, s.rows.filter (matchesRecord (lowerStr message)) = r :: t := by
      cases hl : s.rows.filter (matchesRecord (lowerStr message)) with
      | nil => rw [hl] at hf; simp at hf
      | cons x t =>
        rw [hl] at hf
        simp at hf
        exact ⟨t, by rw [hf]⟩
    unfold chatbot chatbotSearch
    rw [ht]

theorem chatbot_first_match_or_fallback_witness :
    chatbot seedStore "xyzxyz-unknown" = (fallbackReply, none) ∧
    chatbot seedStore "fever" =
      (formatChatbotResponse
        ⟨2, dengueSample.name, dengueSample.symptoms, dengueSample.causes,
          dengueSample.prevention, dengueSample.when_to_see_doctor⟩ (lowerStr "fever"),
       some ⟨2, dengueSample.name, dengueSample.symptoms, dengueSample.causes,
          dengueSample.prevention, dengueSample.when_to_see_doctor⟩) :=
  ⟨(chatbot_first_match_or_fallback seedStore "xyzxyz-unknown").1 (by decide),
   (chatbot_first_match_or_fallback seedStore "fever").2.1
     ⟨2, dengueSample.name, dengueSample.symptoms, dengueSample.causes,
        dengueSample.prevention, dengueSample.when_to_see_doctor⟩ (by decide)⟩

/-- Looking up a freshly appended row by its id finds it, provided no
earlier row carries that id. -/
theorem find?_append_new (l : List DiseaseRecord) (x : DiseaseRecord) (k : Nat)
    (hl : ∀ r ∈ l, r.id ≠ k) (hx : x.id = k) :
    (l ++ [x]).find? (fun r => r.id == k) = some x := by
  induction l with
  | nil => simp [List.find?_cons, hx]
  | cons a t ih =>
    have ha : (a.id == k) = false := by
      simpa using hl a (List.mem_cons_self a t)
    simp only [List.cons_append, List.find?_cons, ha]
    simpa using ih (fun r hr => hl r (List.mem_cons_of_mem a hr))

/-- After replacing every row with a given id, looking that id up
finds the replacement, provided some row had the id. -/
theorem find?_map_update (l : List DiseaseRecord) (k : Nat) (x : DiseaseRecord)
    (hx : x.id = k) (hl : l.any (fun r => r.id == k) = true) :
    (l.map (fun r => if r.id == k then x else r)).find? (fun r => r.id == k) = some x := by
  induction l with
  | nil => simp at hl
  | cons a t ih =>
    by_cases ha : a.id = k
    · have h1 : (a :: t).map (fun r => if r.id == k then x else r)
          = x :: t.map (fun r => if r.id == k then x else r) := by
        simp [ha]
      rw [h1, List.find?_cons_of_pos _ (by simp [hx])]
    · have ha' : (a.id == k) = false := by simp [ha]
      have h1 : (a :: t).map (fun r => if r.id == k then x else r)
          = a :: t.map (fun r => if r.id == k then x else r) := by
        simp [ha]
      rw [h1, List.find?_cons_of_neg _ (by simp [ha])]
      exact ih (by simpa [List.any_cons, ha'] using hl)

/-- C5: for every create input with all five fields present and
non-empty, the id returned by `create` resolves via `getById` to a
record whose five field values are identical to the input (the store
invariant that all row ids are below the AUTOINCREMENT counter holds
in every reachable state). -/
theorem create_then_getById :
  ∀ (s : Store) (n sy c p w : String), IdsBelow s →
    n ≠ "" → sy ≠ "" → c ≠ "" → p ≠ "" → w ≠ "" →
    ∀ (s' : Store) (id : Nat),
      Svc.create s ⟨some n, some sy, some c, some p, some w⟩ = .ok (s', id) →
      Svc.getById s' id = .ok ⟨id, n, sy, c, p, w⟩ := by
  intro s n sy c p w hb _ _ _ _ _ s' id h
  simp only [Svc.create, Except.ok.injEq, Prod.mk.injEq] at h
  obtain ⟨hs', hid⟩ := h
  subst hs' hid
  unfold Svc.getById
  rw [find?_append_new _ _ _ (fun r hr => Nat.ne_of_lt (hb r hr)) rfl]

theorem create_then_getById_witness :
    Svc.getById ⟨[⟨1, "A", "B", "C", "D", "E"⟩], 2⟩ 1 = .ok ⟨1, "A", "B", "C", "D", "E"⟩ :=
  create_then_getById initStore "A" "B" "C" "D" "E" (by decide)
    (by decide) (by decide) (by decide) (by decide) (by decide)
    ⟨[⟨1, "A", "B", "C", "D", "E"⟩], 2⟩ 1 rfl

/-- C6: for every id present in the store and every full set of five
field values, `update` followed by `getById` returns exactly those
field values — every field is replaced, none is merged with or
retained from the prior record. -/
theorem update_then_getById :
  ∀ (s : Store) (id : Nat) (n sy c p w : String),
    s.rows.any (fun r => r.id == id) = true →
    ∀ s' : Store,
      Svc.update s id ⟨some n, some sy, some c, some p, some w⟩ = .ok s' →
      Svc.getById s' id = .ok ⟨id, n, sy, c, p, w⟩ := by
  intro s id n sy c p w hany s' h
  simp only [Svc.update, hany, if_true, Except.ok.injEq] at h
  subst h
  unfold Svc.getById
  rw [find?_map_update s.rows id ⟨id, n, sy, c, p, w⟩ rfl hany]

theorem update_then_getById_witness :
    Svc.getById ⟨[⟨1, "N", "S", "C", "P", "W"⟩], 2⟩ 1 = .ok ⟨1, "N", "S", "C", "P", "W"⟩ :=
  update_then_getById ⟨[⟨1, "a", "b", "c", "d", "e"⟩], 2⟩ 1 "N" "S" "C" "P" "W" (by decide)
    ⟨[⟨1, "N", "S", "C", "P", "W"⟩], 2⟩ rfl

/-- C7: for every id not present in the store, `getById`, `update` and
`delete` each fail with `notFound` (the 404 "Disease not found"
response) and the store is left unchanged; consequently a successful
`delete` followed by a second `delete` of the same id also fails with
`notFound`. -/
theorem missing_id_not_found :
  (∀ (s : Store) (id : Nat), (∀ r ∈ s.rows, r.id ≠ id) →
    Svc.getById s id = .error .notFound ∧
    (∀ f : FieldsIn, Svc.update s id f = .error .notFound) ∧
    Svc.delete s id = .error .notFound ∧
    (∀ f : FieldsIn, applyOp s (Op.update id f) = s) ∧
    applyOp s (Op.delete id) = s) ∧
  (∀ (s : Store) (id : Nat) (s' : Store), Svc.delete s id = .ok s' →
    Svc.delete s' id = .error .notFound) := by
  constructor
  · intro s id h
    have hany : s.rows.any (fun r => r.id == id) = false := by
      rw [List.any_eq_false]
      intro r hr
      simpa using h r hr
    have hfind : s.rows.find? (fun r => r.id == id) = none :=
      List.find?_eq_none.mpr (fun r hr => by simpa using h r hr)
    refine ⟨?_, ?_, ?_, ?_, ?_⟩ <;>
      simp [Svc.getById, Svc.update, Svc.delete, applyOp, hany, hfind]
  · intro s id s' h
    have hany : s.rows.any (fun r => r.id == id) = true := by
      by_cases hc : s.rows.any (fun r => r.id == id) = true
      · exact hc
      · simp [Svc.delete, hc] at h
    simp only [Svc.delete, hany, if_true, Except.ok.injEq] at h
    subst h
    have hany2 : (s.rows.filter (fun r => !(r.id == id))).any (fun r => r.id == id) = false := by
      rw [List.any_eq_false]
      intro r hr
      have hmem := (List.mem_filter.mp hr).2
      simp at hmem ⊢
      exact hmem
    simp [Svc.delete, hany2]

theorem missing_id_not_found_witness :
    Svc.getById ⟨[⟨1, "a", "b", "c", "d", "e"⟩], 2⟩ 7 = .error .notFound ∧
    Svc.delete (⟨[], 2⟩ : Store) 1 = .error .notFound :=
  ⟨(missing_id_not_found.1 ⟨[⟨1, "a", "b", "c", "d", "e"⟩], 2⟩ 7 (by decide)).1,
   missing_id_not_found.2 ⟨[⟨1, "a", "b", "c", "d", "e"⟩], 2⟩ 1 ⟨[], 2⟩ rfl⟩

/-- Each seeded INSERT appends one row. -/
theorem foldl_insertSeedRow_rows (l : List SampleDisease) :
    ∀ s : Store, (l.foldl insertSeedRow s).rows.length = s.rows.length + l.length := by
  induction l with
  | nil => intro s; rfl
  | cons d t ih =>
    intro s
    rw [List.foldl_cons, ih]
    simp [insertSeedRow]
    omega

/-- C8: seeding is idempotent — `insertSampleData` (spec:
`seedIfEmpty`) inserts the five starter records only when the record
count is zero and is a no-op otherwise, so running it twice in
succession never produces more than the five seed records. -/
theorem sample_data_seeding_idempotent :
  (∀ s : Store, s.rows.length ≠ 0 → insertSampleData s = s) ∧
  (∀ s : Store, s.rows.length = 0 → (insertSampleData s).rows.length = 5) ∧
  (∀ s : Store, insertSampleData (insertSampleData s) = insertSampleData s) := by
  have hempty : ∀ s : Store, s.rows.length = 0 → (insertSampleData s).rows.length = 5 := by
    intro s h
    rw [insertSampleData, if_pos h, foldl_insertSeedRow_rows, h]
    decide
  have hnoop : ∀ t : Store, t.rows.length ≠ 0 → insertSampleData t = t :=
    fun t ht => by rw [insertSampleData, if_neg ht]
  refine ⟨hnoop, hempty, ?_⟩
  intro s
  by_cases h : s.rows.length = 0
  · exact hnoop (insertSampleData s) (by rw [hempty s h]; omega)
  · rw [hnoop s h]
    exact hnoop s h

theorem sample_data_seeding_idempotent_witness :
    insertSampleData ⟨[⟨1, "a", "b", "c", "d", "e"⟩], 2⟩ = ⟨[⟨1, "a", "b", "c", "d", "e"⟩], 2⟩ ∧
    (insertSampleData initStore).rows.length = 5 :=
  ⟨sample_data_seeding_idempotent.1 ⟨[⟨1, "a", "b", "c", "d", "e"⟩], 2⟩ (by decide),
   sample_data_seeding_idempotent.2.1 initStore rfl⟩

/-- The store invariant maintained by every request: row ids are
pairwise distinct and all sit below the AUTOINCREMENT counter. -/
def StoreWF (s : Store) : Prop := NodupIds s ∧ IdsBelow s

/-- Appending a row carrying the current AUTOINCREMENT id and bumping
the counter preserves the invariant. -/
theorem wf_append_next (s : Store) (hw : StoreWF s) (x : DiseaseRecord)
    (hx : x.id = s.nextId) : StoreWF ⟨s.rows ++ [x], s.nextId + 1⟩ := by
  obtain ⟨hnd, hb⟩ := hw
  constructor
  · show ((s.rows ++ [x]).map (fun r => r.id)).Nodup
    rw [List.map_append]
    refine List.Nodup.append hnd (List.nodup_singleton _) ?_
    intro a ha hb'
    obtain ⟨r, hr, hrid⟩ := List.mem_map.mp ha
    simp only [List.map_cons, List.map_nil, List.mem_singleton] at hb'
    have := hb r hr
    omega
  · intro r hr
    rcases List.mem_append.mp hr with h | h
    · exact Nat.lt_succ_of_lt (hb r h)
    · simp only [List.mem_singleton] at h
      subst h
      rw [hx]
      exact Nat.lt_succ_self _

/-- Filtering rows (a DELETE) preserves the invariant. -/
theorem wf_filter (s : Store) (hw : StoreWF s) (p : DiseaseRecord → Bool) :
    StoreWF ⟨s.rows.filter p, s.nextId⟩ := by
  constructor
  · exact List.Nodup.sublist (List.Sublist.map _ (List.filter_sublist _)) hw.1
  · intro r hr
    exact hw.2 r (List.mem_of_mem_filter hr)

/-- An UPDATE rewrites field values but leaves every row's id in
place. -/
theorem map_update_ids (l : List DiseaseRecord) (k : Nat) (x : DiseaseRecord)
    (hx : x.id = k) :
    (l.map (fun r => if r.id == k then x else r)).map (fun r => r.id)
      = l.map (fun r => r.id) := by
  rw [List.map_map]
  refine List.map_congr_left ?_
  intro r _
  by_cases h : r.id = k <;> simp [Function.comp, h, hx]

/-- A successful INSERT appends a row with the current counter as id,
bumps the counter, and answers that id. -/
theorem create_ok_shape (s : Store) (f : FieldsIn) (s' : Store) (id : Nat)
    (h : Svc.create s f = .ok (s', id)) :
    ∃ x : DiseaseRecord, x.id = s.nextId ∧
      s' = ⟨s.rows ++ [x], s.nextId + 1⟩ ∧ id = s.nextId := by
  rcases f with ⟨n, sy, c, p, w⟩
  cases n <;> cases sy <;> cases c <;> cases p <;> cases w <;>
    simp only [Svc.create, Except.ok.injEq, Prod.mk.injEq, reduceCtorEq] at h
  rename_i n sy c p w
  obtain ⟨hs', hid⟩ := h
  exact ⟨⟨s.nextId, n, sy, c, p, w⟩, rfl, hs'.symm, hid.symm⟩

/-- A successful UPDATE maps the rows, keeps the counter, and implies
the id was present. -/
theorem update_ok_shape (s : Store) (id : Nat) (f : FieldsIn) (s' : Store)
    (h : Svc.update s id f = .ok s') :
    ∃ x : DiseaseRecord, x.id = id ∧
      s' = ⟨s.rows.map (fun r => if r.id == id then x else r), s.nextId⟩ ∧
      s.rows.any (fun r => r.id == id) = true := by
  by_cases hany : s.rows.any (fun r => r.id == id) = true
  · rcases f with ⟨n, sy, c, p, w⟩
    cases n <;> cases sy <;> cases c <;> cases p <;> cases w <;>
      simp only [Svc.update, hany, if_true, Except.ok.injEq, reduceCtorEq] at h
    rename_i n sy c p w
    exact ⟨⟨id, n, sy, c, p, w⟩, rfl, h.symm, hany⟩
  · simp [Svc.update, hany] at h

/-- A successful DELETE filters the rows, keeps the counter, and
implies the id was present. -/
theorem delete_ok_shape (s : Store) (id : Nat) (s' : Store)
    (h : Svc.delete s id = .ok s') :
    s' = ⟨s.rows.filter (fun r => !(r.id == id)), s.nextId⟩ ∧
      s.rows.any (fun r => r.id == id) = true := by
  by_cases hany : s.rows.any (fun r => r.id == id) = true
  · simp only [Svc.delete, hany, if_true, Except.ok.injEq] at h
    exact ⟨h.symm, hany⟩
  · simp [Svc.delete, hany] at h

/-- Seeding inserts preserve the invariant. -/
theorem foldl_insertSeedRow_wf (l : List SampleDisease) :
    ∀ s : Store, StoreWF s → StoreWF (l.foldl insertSeedRow s) := by
  induction l with
  | nil => intro s hw; exact hw
  | cons d t ih =>
    intro s hw
    rw [List.foldl_cons]
    exact ih _ (wf_append_next s hw _ rfl)

/-- Serving any request preserves the store invariant. -/
theorem applyOp_wf (s : Store) (op : Op) (hw : StoreWF s) : StoreWF (applyOp s op) := by
  cases op with
  | create f =>
    cases hc : Svc.create s f with
    | ok pair =>
      obtain ⟨x, hx, hs', _⟩ := create_ok_shape s f pair.1 pair.2 (by rw [hc])
      simp only [applyOp, hc]
      rw [hs']
      exact wf_append_next s hw x hx
    | error e => simpa only [applyOp, hc] using hw
  | update id f =>
    cases hu : Svc.update s id f with
    | ok s' =>
      obtain ⟨x, hx, hs', hany⟩ := update_ok_shape s id f s' hu
      simp only [applyOp, hu]
      rw [hs']
      constructor
      · show ((s.rows.map (fun r => if r.id == id then x else r)).map (fun r => r.id)).Nodup
        rw [map_update_ids s.rows id x hx]
        exact hw.1
      · intro r hr
        obtain ⟨r₀, hr₀, hre⟩ := List.mem_map.mp hr
        subst hre
        by_cases h : r₀.id = id
        · have hlt := hw.2 r₀ hr₀
          simp only [h, beq_self_eq_true, if_true, hx]
          omega
        · rw [if_neg (by simp [h])]
          exact hw.2 r₀ hr₀
    | error e => simpa only [applyOp, hu] using hw
  | delete id =>
    cases hd : Svc.delete s id with
    | ok s' =>
      obtain ⟨hs', _⟩ := delete_ok_shape s id s' hd
      simp only [applyOp, hd]
      rw [hs']
      exact wf_filter s hw _
    | error e => simpa only [applyOp, hd] using hw
  | seed =>
    show StoreWF (insertSampleData s)
    by_cases h : s.rows.length = 0
    · rw [insertSampleData, if_pos h]
      exact foldl_insertSeedRow_wf sampleDiseases s hw
    · rwa [insertSampleData, if_neg h]

/-- Each seeded INSERT bumps the counter. -/
theorem foldl_insertSeedRow_nextId (l : List SampleDisease) :
    ∀ s : Store, s.nextId ≤ (l.foldl insertSeedRow s).nextId := by
  induction l with
  | nil => intro s; exact Nat.le_refl _
  | cons d t ih =>
    intro s
    rw [List.foldl_cons]
    exact Nat.le_trans (Nat.le_succ _) (ih (insertSeedRow s d))

/-- The AUTOINCREMENT counter never decreases across a request. -/
theorem applyOp_nextId_mono (s : Store) (op : Op) :
    s.nextId ≤ (applyOp s op).nextId := by
  cases op with
  | create f =>
    cases hc : Svc.create s f with
    | ok pair =>
      obtain ⟨x, _, hs', _⟩ := create_ok_shape s f pair.1 pair.2 (by rw [hc])
      simp only [applyOp, hc]
      rw [hs']
      exact Nat.le_succ _
    | error e => simp only [applyOp, hc]; exact Nat.le_refl _
  | update id f =>
    cases hu : Svc.update s id f with
    | ok s' =>
      obtain ⟨x, _, hs', _⟩ := update_ok_shape s id f s' hu
      simp only [applyOp, hu]
      rw [hs']
    | error e => simp only [applyOp, hu]; exact Nat.le_refl _
  | delete id =>
    cases hd : Svc.delete s id with
    | ok s' =>
      obtain ⟨hs', _⟩ := delete_ok_shape s id s' hd
      simp only [applyOp, hd]
      rw [hs']
    | error e => simp only [applyOp, hd]; exact Nat.le_refl _
  | seed =>
    show s.nextId ≤ (insertSampleData s).nextId
    by_cases h : s.rows.length = 0
    · rw [insertSampleData, if_pos h]
      exact foldl_insertSeedRow_nextId sampleDiseases s
    · rw [insertSampleData, if_neg h]

/-- The counter never decreases across any request sequence. -/
theorem foldl_applyOp_nextId_mono (ops : List Op) :
    ∀ s : Store, s.nextId ≤ (ops.foldl applyOp s).nextId := by
  induction ops with
  | nil => intro s; exact Nat.le_refl _
  | cons op rest ih =>
    intro s
    rw [List.foldl_cons]
    exact Nat.le_trans (applyOp_nextId_mono s op) (ih (applyOp s op))

/-- Every reachable store satisfies the invariant. -/
theorem reachable_wf (s : Store) (h : Reachable s) : StoreWF s := by
  obtain ⟨ops, rfl⟩ := h
  have hgen : ∀ (l : List Op) (t : Store), StoreWF t → StoreWF (l.foldl applyOp t) := by
    intro l
    induction l with
    | nil => intro t ht; exact ht
    | cons op rest ih =>
      intro t ht
      rw [List.foldl_cons]
      exact ih _ (applyOp_wf t op ht)
  exact hgen ops initStore ⟨by decide, by decide⟩

/-- C9: in every reachable store state the id identifies exactly one
record (row ids are pairwise distinct), and ids are never reused:
after a successful `delete(id)`, no `create` served later — after any
further sequence of requests — is ever assigned that id again. -/
theorem ids_unique_never_reused :
  (∀ s : Store, Reachable s → NodupIds s) ∧
  (∀ s : Store, Reachable s → ∀ (id : Nat) (s' : Store), Svc.delete s id = .ok s' →
    ∀ (ops : List Op) (f : FieldsIn) (st : Store) (newId : Nat),
      Svc.create (ops.foldl applyOp s') f = .ok (st, newId) → newId ≠ id) := by
  constructor
  · intro s h
    exact (reachable_wf s h).1
  · intro s hr id s' hdel ops f st newId hcre
    obtain ⟨hs', hany⟩ := delete_ok_shape s id s' hdel
    have hidlt : id < s.nextId := by
      obtain ⟨r, hrm, hrid⟩ := List.any_eq_true.mp hany
      have hlt := (reachable_wf s hr).2 r hrm
      have heq : r.id = id := by simpa using hrid
      omega
    have hs'next : s'.nextId = s.nextId := by rw [hs']
    obtain ⟨x, _, _, hnew⟩ := create_ok_shape _ f st newId hcre
    have hmono := foldl_applyOp_nextId_mono ops s'
    omega

theorem ids_unique_never_reused_witness :
    NodupIds seedStore ∧ (2 : Nat) ≠ 1 :=
  ⟨ids_unique_never_reused.1 seedStore ⟨[Op.seed], rfl⟩,
   ids_unique_never_reused.2 ⟨[⟨1, "a", "b", "c", "d", "e"⟩], 2⟩
     ⟨[Op.create ⟨some "a", some "b", some "c", some "d", some "e"⟩], rfl⟩
     1 ⟨[], 2⟩ rfl [] ⟨some "x", some "y", some "z", some "u", some "v"⟩
     ⟨[⟨2, "x", "y", "z", "u", "v"⟩], 3⟩ 2 rfl⟩
